import Mathlib

/-!
# Nearest polling stations: formal model of the resolution pipeline

Shallow embedding of the nearest-polling-unit resolution pipeline of the
repository (source files `app.py` and `app2.py`).

Modelling conventions:
* Python floats are modelled by `ℚ`; the `float('inf')` sentinel used for
  failed routing calls makes the distance type `WithTop ℚ`, with `⊤` for
  infinity (`⊤` compares above every finite value, matching IEEE `inf`
  against finite floats; `NaN` never arises in this code).
* The outside world of one HTTP routing call is an `HttpResult` value:
  either the `requests.post` call raised (network error / timeout), or it
  delivered a response with a status code and a body.  The body records
  whether `r.json()` parses and whether the
  `features[0].properties.segments[0]` fields are present; the raw decoded
  GeoJSON value is an opaque token (`Nat`).
* Code that can raise a Python exception is embedded as `Except Unit`;
  `Except.error ()` is an uncaught exception propagating to the caller.
* The pandas calls are embedded by their documented semantics on the list
  of rows: `DataFrame.nsmallest(m, col)` (default `keep='first'`) returns
  the `m` smallest rows sorted ascending by the column with earlier rows
  winning ties, i.e. a stable sort followed by `take m`;
  `DataFrame.sort_values(col)` (default `kind='quicksort'`, which pandas
  documents as not stable) returns some permutation of the rows that is
  sorted ascending by the column — it is embedded relationally as the
  predicate `IsSortValuesOutput`.
* The sequential refinement loop of `find_nearest_polling_units` issues one
  routing request per candidate, in order, and aborts on an uncaught
  exception; the embedding also counts the requests actually issued.
-/

namespace PollingStations

/-- A polling-unit record of the dataset: the attribute columns
`name`, `ward`, `lga`, `state` and the point geometry
(`row.geometry.y` = latitude, `row.geometry.x` = longitude). -/
structure PollingUnit where
  name : String
  ward : String
  lga : String
  state : String
  lat : ℚ
  lon : ℚ
deriving DecidableEq

/-- The geodesic-distance function `geodesic(a, b).meters` of the geopy
library, abstracted: any function from two (lat, lon) pairs to meters.
All pipeline theorems hold for every such function. -/
def GeodesicFn : Type := ℚ × ℚ → ℚ × ℚ → ℚ

/-- The body of one HTTP response from the routing provider.
`json` is the result of `r.json()`: `some` opaque decoded value, or `none`
when the payload is not valid JSON (then `r.json()` raises).  `fields` is
the extraction `features[0].properties.segments[0].{distance, duration}`:
`none` when those keys are missing (then the subscripting raises). -/
structure Body where
  json : Option Nat
  fields : Option (ℚ × ℚ)
deriving DecidableEq

/-- Outcome of one `requests.post` call to the routing provider:
the call raised (network error, connection failure, timeout), or a
response with an HTTP status code and a body was delivered. -/
inductive HttpResult where
  | exn : HttpResult
  | resp : Nat → Body → HttpResult
deriving DecidableEq

/-- Routing endpoint used by `app.py` (line 22). -/
def ORS_DIRECTIONS_URL : String :=
  "https://api.openrouteservice.org/v2/directions/driving-car/geojson"

/-- Routing endpoint used by `app2.py` (line 16). -/
def ORS_DIRECTIONS_URL2 : String :=
  "https://api.openrouteservice.org/v2/directions/driving-car"

/-- The observable configuration of one outgoing HTTP request: target URL,
the coordinate pairs of the JSON body (each `[longitude, latitude]`), and
the `timeout=` argument passed to `requests.post` (`none` when the call
site passes no timeout, which in the requests library means waiting
without bound). -/
structure RequestCfg where
  url : String
  coordinates : List (ℚ × ℚ)
  timeoutSeconds : Option ℚ
deriving DecidableEq

/-- The request built by `get_road_route_and_distance` in `app.py`
(lines 36-41): body `[[start_lon, start_lat], [end_lon, end_lat]]`, posted
to `ORS_DIRECTIONS_URL` with no `timeout=` argument. -/
def refinementRequest (start_lat start_lon end_lat end_lon : ℚ) : RequestCfg :=
  { url := ORS_DIRECTIONS_URL
    coordinates := [(start_lon, start_lat), (end_lon, end_lat)]
    timeoutSeconds := none }

/-- The request built by `get_route_geojson` in `app2.py` (lines 50-62):
same body shape, posted to `ORS_DIRECTIONS_URL2` with `timeout=10`. -/
def selectedRouteRequest (start_lon start_lat end_lon end_lat : ℚ) : RequestCfg :=
  { url := ORS_DIRECTIONS_URL2
    coordinates := [(start_lon, start_lat), (end_lon, end_lat)]
    timeoutSeconds := some 10 }

/-- `get_road_route_and_distance` of `app.py` (lines 34-48), as a function
of the HTTP outcome.  On status 200 it runs `r.json()` (raises when the
payload is not JSON) and extracts
`features[0].properties.segments[0].distance/duration` (raises when the
keys are missing), returning `(data, distance, duration)`.  On any other
status it returns `(None, float('inf'), float('inf'))`.  A raised
exception — including the `requests.post` call itself raising — is *not*
caught and propagates (`Except.error ()`). -/
def get_road_route_and_distance (h : HttpResult) :
    Except Unit (Option Nat × WithTop ℚ × WithTop ℚ) :=
  match h with
  | HttpResult.exn => Except.error ()
  | HttpResult.resp status body =>
    if status = 200 then
      match body.json with
      | none => Except.error ()
      | some j =>
        match body.fields with
        | none => Except.error ()
        | some (d, t) => Except.ok (some j, (d : ℚ), (t : ℚ))
    else
      Except.ok (none, ⊤, ⊤)

/-- `get_route_geojson` of `app2.py` (lines 49-70): the whole call is
wrapped in `try/except`, so a raised exception (network error, timeout,
invalid JSON) and a non-200 status all yield `None`; on a 200 response the
decoded JSON is returned. -/
def get_route_geojson (h : HttpResult) : Option Nat :=
  match h with
  | HttpResult.exn => none
  | HttpResult.resp status body =>
    if status = 200 then
      match body.json with
      | none => none
      | some j => some j
    else
      none

/-- One enriched row of the per-query frame: the polling unit together
with the columns `geo_distance_m`, `road_distance_m`, `duration_s`,
`route_geojson` attached by `find_nearest_polling_units`. -/
structure Candidate where
  unit : PollingUnit
  geo_distance_m : ℚ
  road_distance_m : WithTop ℚ
  duration_s : WithTop ℚ
  route_geojson : Option Nat
deriving DecidableEq

/-- Comparison of two rows by a sort key (the column a pandas sort is
keyed on). -/
def keyLe {α β : Type} [LinearOrder β] (key : α → β) (a b : α) : Prop :=
  key a ≤ key b

instance keyLeDecidable {α β : Type} [LinearOrder β] (key : α → β) :
    DecidableRel (keyLe key) :=
  fun a b => inferInstanceAs (Decidable (key a ≤ key b))

instance keyLeTotal {α β : Type} [LinearOrder β] (key : α → β) :
    IsTotal α (keyLe key) :=
  ⟨fun a b => le_total (key a) (key b)⟩

instance keyLeTrans {α β : Type} [LinearOrder β] (key : α → β) :
    IsTrans α (keyLe key) :=
  ⟨fun _ _ _ h₁ h₂ => le_trans h₁ h₂⟩

/-- `DataFrame.nsmallest(m, col)` with the default `keep='first'`:
the `m` smallest rows by the key column, sorted ascending, earlier rows
winning ties (pandas implements the selection with a stable mergesort of
the column, so this equals a stable sort followed by `take m`). -/
def nsmallestBy {α β : Type} [LinearOrder β] (key : α → β) (m : Nat)
    (l : List α) : List α :=
  List.take m (List.insertionSort (keyLe key) l)

/-- Lines 53-57 of `app.py`: compute the geodesic distance from the query
point to every row and attach it as the column `geo_distance_m`
(on the fresh copy `pu = polling_units.copy()`). -/
def withGeo (geod : GeodesicFn) (q : ℚ × ℚ) (ds : List PollingUnit) :
    List (PollingUnit × ℚ) :=
  ds.map fun u => (u, geod q (u.lat, u.lon))

/-- Line 58 of `app.py`:
`pu = pu.nsmallest(n * 3, "geo_distance_m")` — the geodesic pre-filter,
over-fetching `n * 3` candidates. -/
def prefilterRows (geod : GeodesicFn) (q : ℚ × ℚ) (ds : List PollingUnit)
    (n : Nat) : List (PollingUnit × ℚ) :=
  nsmallestBy Prod.snd (n * 3) (withGeo geod q ds)

/-- The sequential refinement loop of `find_nearest_polling_units`
(lines 60-71 of `app.py`), started at request index `i`: one routing call
per row, in row order.  Returns the refined candidates (or the uncaught
exception that aborted the loop) together with the number of routing
requests actually issued. -/
def refineFrom (outcomes : Nat → HttpResult) :
    Nat → List (PollingUnit × ℚ) → Except Unit (List Candidate) × Nat
  | _, [] => (Except.ok [], 0)
  | i, row :: rows =>
    match get_road_route_and_distance (outcomes i) with
    | Except.error e => (Except.error e, 1)
    | Except.ok (g, d, t) =>
      match refineFrom outcomes (i + 1) rows with
      | (Except.ok rest, c) =>
        (Except.ok ({ unit := row.1, geo_distance_m := row.2,
                      road_distance_m := d, duration_s := t,
                      route_geojson := g } :: rest), c + 1)
      | (Except.error e, c) => (Except.error e, c + 1)

/-- The refinement stage: the loop of lines 60-71 of `app.py`, with the
`i`-th routing call observing outcome `outcomes i`. -/
def refine (outcomes : Nat → HttpResult) (rows : List (PollingUnit × ℚ)) :
    Except Unit (List Candidate) × Nat :=
  refineFrom outcomes 0 rows

/-- Lines 50-71 of `app.py`: geodesic pre-filter followed by the
refinement loop.  The result is the refined candidate rows (in pre-filter
order, before the final `sort_values`/`head`), or the uncaught exception
aborting the query, plus the number of routing requests issued. -/
def resolveRefined (geod : GeodesicFn) (outcomes : Nat → HttpResult)
    (ds : List PollingUnit) (q : ℚ × ℚ) (n : Nat) :
    Except Unit (List Candidate) × Nat :=
  refine outcomes (prefilterRows geod q ds n)

/-- Sort key of line 74 of `app.py`: the `road_distance_m` column. -/
def roadKey (c : Candidate) : WithTop ℚ :=
  c.road_distance_m

/-- `pu.sort_values("road_distance_m")` (line 74 of `app.py`) with the
default `kind='quicksort'`: the output is some permutation of the input
rows that is sorted ascending by the key column.  pandas documents this
kind as not stable, so the tie order is not determined — the call is
embedded by this relation between input and admissible outputs. -/
def IsSortValuesOutput (input output : List Candidate) : Prop :=
  input.Perm output ∧ List.Sorted (keyLe roadKey) output

/-- Ranking and truncation, lines 73-76 of `app.py`:
`pu.sort_values("road_distance_m").head(n)`. -/
def IsRankOutput (refined : List Candidate) (n : Nat)
    (result : List Candidate) : Prop :=
  ∃ out, IsSortValuesOutput refined out ∧ result = List.take n out

/-- A `ResultSet` the whole pipeline `find_nearest_polling_units`
(lines 50-76 of `app.py`) can return for the given dataset, query point
and requested count: the refinement stage completed without an uncaught
exception and the result is an admissible sort of the refined rows,
truncated to `n`. -/
def IsResultSet (geod : GeodesicFn) (outcomes : Nat → HttpResult)
    (ds : List PollingUnit) (q : ℚ × ℚ) (n : Nat)
    (result : List Candidate) : Prop :=
  ∃ refined cnt, resolveRefined geod outcomes ds q n = (Except.ok refined, cnt) ∧
    IsRankOutput refined n result

/-- One query against the process-global dataset frame `polling_units`,
with the global state threaded explicitly: the query works on
`pu = polling_units.copy()` (line 56 of `app.py`) and attaches all
per-query columns to that copy only, so the dataset frame handed back is
the one handed in. -/
def runQuery (store : List PollingUnit) (geod : GeodesicFn)
    (outcomes : Nat → HttpResult) (q : ℚ × ℚ) (n : Nat) :
    (Except Unit (List Candidate) × Nat) × List PollingUnit :=
  (resolveRefined geod outcomes store q n, store)

/-- `find_closest_polling_units` of `app2.py` (lines 24-46), with the
global frame threaded explicitly: it works on
`polling_units = polling_units.copy()` (line 26), attaches the
`Distance (m)` column to the copy, takes the `n` geodesically smallest
rows, and returns the dataset frame unchanged. -/
def find_closest_polling_units (geod : GeodesicFn) (q : ℚ × ℚ)
    (store : List PollingUnit) (n : Nat) :
    List (PollingUnit × ℚ) × List PollingUnit :=
  (nsmallestBy Prod.snd n (withGeo geod q store), store)

/-! ## Concrete data used to evaluate the model on small inputs -/

/-- A small polling unit used in concrete evaluations. -/
def uA : PollingUnit := ⟨"A", "wa", "la", "sa", 1, 1⟩

/-- A second polling unit used in concrete evaluations. -/
def uB : PollingUnit := ⟨"B", "wb", "lb", "sb", 2, 1⟩

/-- A concrete geodesic-distance function for evaluations: the distance of
a target point is its first coordinate (any function works; pipeline
theorems are proved for all of them). -/
def geodEx : GeodesicFn := fun _ r => r.1

/-- A two-unit dataset. -/
def dsEx : List PollingUnit := [uA, uB]

/-- A concrete query point. -/
def qEx : ℚ × ℚ := (0, 0)

/-- A well-formed 200-response body: valid JSON (token 7) with
`distance = 500`, `duration = 60`. -/
def okBody : Body := ⟨some 7, some (500, 60)⟩

/-- A successful routing outcome. -/
def okOutcome : HttpResult := HttpResult.resp 200 okBody

/-- A non-success routing outcome (HTTP 503). -/
def failOutcome : HttpResult := HttpResult.resp 503 ⟨none, none⟩

/-- Every routing call succeeds. -/
def outcomesOk : Nat → HttpResult := fun _ => okOutcome

/-- Every routing call returns a non-success status. -/
def outcomesFail : Nat → HttpResult := fun _ => failOutcome

/-- The first routing call raises (network error / timeout); the rest
succeed. -/
def outcomesFirstExn : Nat → HttpResult :=
  fun i => if i = 0 then HttpResult.exn else okOutcome

/-- The first routing call returns a non-success status; the rest
succeed. -/
def outcomesFirstFail : Nat → HttpResult :=
  fun i => if i = 0 then failOutcome else okOutcome

/-- The pre-filtered rows of `dsEx` for `geodEx` and `qEx`. -/
def rowsEx : List (PollingUnit × ℚ) := [(uA, 1), (uB, 2)]

/-- The candidate for `uA` when its routing call failed with a non-success
status: infinity distances, no geometry. -/
def cAfail : Candidate := ⟨uA, 1, ⊤, ⊤, none⟩

/-- The candidate for `uB` when its routing call failed with a non-success
status. -/
def cBfail : Candidate := ⟨uB, 2, ⊤, ⊤, none⟩

/-- The candidate for `uA` when its routing call succeeded with `okBody`. -/
def cAok : Candidate := ⟨uA, 1, (500 : ℚ), (60 : ℚ), some 7⟩

/-- The candidate for `uB` when its routing call succeeded with `okBody`. -/
def cBok : Candidate := ⟨uB, 2, (500 : ℚ), (60 : ℚ), some 7⟩

/-- Decidable equality of routing-step results, used to evaluate the model
on concrete inputs. -/
instance exceptDecEq {ε α : Type} [DecidableEq ε] [DecidableEq α] :
    DecidableEq (Except ε α) := fun a b =>
  match a, b with
  | Except.error e₁, Except.error e₂ =>
    if h : e₁ = e₂ then isTrue (by rw [h])
    else isFalse (fun hc => h (Except.error.inj hc))
  | Except.error _, Except.ok _ => isFalse (fun hc => Except.noConfusion hc)
  | Except.ok _, Except.error _ => isFalse (fun hc => Except.noConfusion hc)
  | Except.ok v₁, Except.ok v₂ =>
    if h : v₁ = v₂ then isTrue (by rw [h])
    else isFalse (fun hc => h (Except.ok.inj hc))

/-! ## Helper lemmas about the refinement loop and the stable pre-filter -/

/-- Specification of a refinement loop run that completed without an
uncaught exception: it issued one request per row, produced one candidate
per row in row order, each candidate carrying its row's unit and geodesic
distance and exactly the values its routing call returned. -/
theorem refineFrom_ok_spec (outcomes : Nat → HttpResult)
    (rows : List (PollingUnit × ℚ)) :
    ∀ (i : Nat) (out : List Candidate) (cnt : Nat),
      refineFrom outcomes i rows = (Except.ok out, cnt) →
      cnt = rows.length ∧ out.length = rows.length ∧
      ∀ j (hj : j < rows.length) (hj2 : j < out.length),
        (out.get ⟨j, hj2⟩).unit = (rows.get ⟨j, hj⟩).1 ∧
        (out.get ⟨j, hj2⟩).geo_distance_m = (rows.get ⟨j, hj⟩).2 ∧
        get_road_route_and_distance (outcomes (i + j)) =
          Except.ok ((out.get ⟨j, hj2⟩).route_geojson,
            (out.get ⟨j, hj2⟩).road_distance_m,
            (out.get ⟨j, hj2⟩).duration_s) := by
  induction rows with
  | nil =>
    intro i out cnt h
    simp only [refineFrom, Prod.mk.injEq, Except.ok.injEq] at h
    obtain ⟨h1, h2⟩ := h
    subst h1
    subst h2
    exact ⟨rfl, rfl, fun j hj => absurd hj (Nat.not_lt_zero j)⟩
  | cons row rows ih =>
    intro i out cnt h
    simp only [refineFrom] at h
    cases hstep : get_road_route_and_distance (outcomes i) with
    | error e =>
      rw [hstep] at h
      simp at h
    | ok v =>
      obtain ⟨g, d, t⟩ := v
      rw [hstep] at h
      cases hrec : refineFrom outcomes (i + 1) rows with
      | mk res c =>
        rw [hrec] at h
        cases res with
        | error e => simp at h
        | ok rest =>
          simp only [Prod.mk.injEq, Except.ok.injEq] at h
          obtain ⟨h1, h2⟩ := h
          subst h1
          subst h2
          obtain ⟨ihc, ihlen, ihget⟩ := ih (i + 1) rest c hrec
          refine ⟨by simp [ihc], by simp [ihlen], ?_⟩
          intro j hj hj2
          cases j with
          | zero =>
            refine ⟨rfl, rfl, ?_⟩
            simpa using hstep
          | succ jj =>
            have hidx : i + (jj + 1) = (i + 1) + jj := by omega
            have hj1 : jj < rows.length := by simpa using hj
            have hj2a : jj < rest.length := by simpa using hj2
            have hmain := ihget jj hj1 hj2a
            rw [hidx]
            simpa using hmain

/-- When no routing call in range raises, the refinement loop completes
without an exception and issues exactly one request per row. -/
theorem refineFrom_ok_of_nonraising (outcomes : Nat → HttpResult)
    (rows : List (PollingUnit × ℚ)) :
    ∀ i : Nat,
      (∀ j, j < rows.length →
        get_road_route_and_distance (outcomes (i + j)) ≠ Except.error ()) →
      ∃ out, refineFrom outcomes i rows = (Except.ok out, rows.length) := by
  induction rows with
  | nil => exact fun i _ => ⟨[], rfl⟩
  | cons row rows ih =>
    intro i hne
    have h0 : get_road_route_and_distance (outcomes i) ≠ Except.error () := by
      have := hne 0 (Nat.succ_pos rows.length)
      simpa using this
    cases hstep : get_road_route_and_distance (outcomes i) with
    | error e =>
      cases e
      exact absurd hstep h0
    | ok v =>
      obtain ⟨g, d, t⟩ := v
      obtain ⟨out, hout⟩ := ih (i + 1) (fun j hj => by
        have hlt : j + 1 < (row :: rows).length := by
          simpa using Nat.succ_lt_succ hj
        have := hne (j + 1) hlt
        have hidx : i + (j + 1) = (i + 1) + j := by omega
        rwa [hidx] at this)
      exact ⟨{ unit := row.1, geo_distance_m := row.2, road_distance_m := d,
               duration_s := t, route_geojson := g } :: out,
        by simp [refineFrom, hstep, hout]⟩

/-- Stability of the stable sort underlying `nsmallestBy`: restricting the
sorted list to the rows whose key equals a fixed value gives exactly the
corresponding rows of the input, in input order. -/
theorem filter_insertionSort_eq {α β : Type} [LinearOrder β] (key : α → β)
    (v : β) (l : List α) :
    List.filter (fun a => decide (key a = v))
        (List.insertionSort (keyLe key) l) =
      List.filter (fun a => decide (key a = v)) l := by
  have hpair : (List.filter (fun a => decide (key a = v)) l).Pairwise
      (keyLe key) := by
    refine List.pairwise_of_forall_mem_list ?_
    intro a ha b hb
    have ha2 : key a = v := by simpa using List.of_mem_filter ha
    have hb2 : key b = v := by simpa using List.of_mem_filter hb
    show key a ≤ key b
    rw [ha2, hb2]
  have hsub : List.Sublist (List.filter (fun a => decide (key a = v)) l)
      (List.insertionSort (keyLe key) l) :=
    List.sublist_insertionSort hpair (List.filter_sublist l)
  have hsub2 := List.Sublist.filter (fun a => decide (key a = v)) hsub
  rw [List.filter_filter] at hsub2
  simp only [Bool.and_self] at hsub2
  have hlen : (List.filter (fun a => decide (key a = v))
        (List.insertionSort (keyLe key) l)).length
      = (List.filter (fun a => decide (key a = v)) l).length :=
    (List.Perm.filter _ (List.perm_insertionSort (keyLe key) l)).length_eq
  exact (List.Sublist.eq_of_length hsub2 hlen.symm).symm

/-- Filtering an initial segment yields an initial segment of the filtered
list. -/
theorem filter_take_leads {α : Type} (p : α → Bool) (m : Nat) (l : List α) :
    List.filter p (List.take m l) <+: List.filter p l := by
  refine ⟨List.filter p (List.drop m l), ?_⟩
  rw [← List.filter_append, List.take_append_drop]

/-! ## Claim C1: failure isolation during refinement -/

/-- C1, counterexample: a single raising routing call (network error or
timeout, `HttpResult.exn`) during refinement is *not* caught locally — the
whole batch aborts with an uncaught exception after one request, the
second candidate is never refined and no `ResultSet` is produced, contrary
to the claim that any failure of a single request is converted locally and
refinement continues. -/
theorem C1_counterexample :
    refine outcomesFirstExn rowsEx = (Except.error (), 1) ∧
      rowsEx.length = 2 :=
  ⟨rfl, rfl⟩

/-- C1, amended: only a non-success HTTP *response* is converted locally —
if no routing call in the batch raises, refinement completes for all
candidates and every candidate whose call returned a non-200 status gets
`road_distance_m = ∞`, `duration_s = ∞` and no route geometry; a raising
call (network error, timeout, malformed payload) instead aborts the whole
batch. -/
theorem C1_amended_nonsuccess_converted_locally
    (outcomes : Nat → HttpResult) (rows : List (PollingUnit × ℚ))
    (hok : ∀ j, j < rows.length →
      get_road_route_and_distance (outcomes j) ≠ Except.error ()) :
    ∃ out, refine outcomes rows = (Except.ok out, rows.length) ∧
      out.length = rows.length ∧
      ∀ j (hj : j < rows.length) (hj2 : j < out.length) (s : Nat) (b : Body),
        outcomes j = HttpResult.resp s b → s ≠ 200 →
        (out.get ⟨j, hj2⟩).road_distance_m = ⊤ ∧
        (out.get ⟨j, hj2⟩).duration_s = ⊤ ∧
        (out.get ⟨j, hj2⟩).route_geojson = none := by
  obtain ⟨out, hout⟩ := refineFrom_ok_of_nonraising outcomes rows 0
    (fun j hj => by simpa using hok j hj)
  obtain ⟨-, hlen, hget⟩ := refineFrom_ok_spec outcomes rows 0 out rows.length hout
  refine ⟨out, hout, hlen, ?_⟩
  intro j hj hj2 s b hresp hs
  have hstep := (hget j hj hj2).2.2
  rw [Nat.zero_add, hresp] at hstep
  simp only [get_road_route_and_distance, if_neg hs] at hstep
  have hstep2 := hstep.symm
  simp only [Except.ok.injEq, Prod.mk.injEq] at hstep2
  exact ⟨hstep2.2.1, hstep2.2.2, hstep2.1⟩

/-- C1, witness for the amended theorem: a two-candidate batch whose first
routing call answers HTTP 503 and whose second succeeds completes with
both candidates, the failed one carrying the infinity sentinel. -/
theorem C1_amended_witness :
    (∀ j, j < rowsEx.length →
      get_road_route_and_distance (outcomesFirstFail j) ≠ Except.error ()) ∧
    ∃ out, refine outcomesFirstFail rowsEx = (Except.ok out, rowsEx.length) ∧
      out.length = rowsEx.length ∧
      ∀ j (hj : j < rowsEx.length) (hj2 : j < out.length) (s : Nat) (b : Body),
        outcomesFirstFail j = HttpResult.resp s b → s ≠ 200 →
        (out.get ⟨j, hj2⟩).road_distance_m = ⊤ ∧
        (out.get ⟨j, hj2⟩).duration_s = ⊤ ∧
        (out.get ⟨j, hj2⟩).route_geojson = none :=
  ⟨by decide,
   C1_amended_nonsuccess_converted_locally outcomesFirstFail rowsEx (by decide)⟩

/-! ## Claim C2: invalid-input rejection -/

/-- C2, counterexample: with requested count `N = 0` the pipeline raises
nothing at all — there is no `InvalidQueryError` anywhere in the code; the
query completes normally with an empty result (and, as the claim's
no-network part would demand, zero routing requests). -/
theorem C2_counterexample :
    resolveRefined geodEx outcomesOk dsEx qEx 0 = (Except.ok [], 0) :=
  rfl

/-- C2, amended: the pipeline performs no input validation and defines no
`InvalidQueryError`; a request with `N = 0` completes successfully with an
empty result, issuing zero routing requests (an out-of-range latitude is
rejected only inside the geodesic library, not by the pipeline). -/
theorem C2_amended_zero_count_empty_ok (geod : GeodesicFn)
    (outcomes : Nat → HttpResult) (ds : List PollingUnit) (q : ℚ × ℚ)
    (n : Nat) (hn : n = 0) :
    resolveRefined geod outcomes ds q n = (Except.ok [], 0) := by
  subst hn
  simp [resolveRefined, prefilterRows, nsmallestBy, refine, refineFrom]

/-- C2, witness for the amended theorem, at a concrete dataset and query
with all-failing routing outcomes (which are never consulted). -/
theorem C2_amended_witness :
    (0 : Nat) = 0 ∧
      resolveRefined geodEx outcomesFail dsEx qEx 0 = (Except.ok [], 0) :=
  ⟨rfl, C2_amended_zero_count_empty_ok geodEx outcomesFail dsEx qEx 0 rfl⟩

/-! ## Claim C3: result ordering and stability of the sentinel tail -/

/-- C3, counterexample: the final sort is pandas `sort_values` with the
default (documented as non-stable) kind, so the pipeline admits a
`ResultSet` in which the two infinity-sentinel candidates appear in the
order *reversed* from the refiner's input order: with both routing calls
answering HTTP 503 the refined rows are `[cAfail, cBfail]`, yet
`[cBfail, cAfail]` is an admissible `ResultSet`. -/
theorem C3_counterexample :
    IsResultSet geodEx outcomesFail dsEx qEx 2 [cBfail, cAfail] ∧
    (resolveRefined geodEx outcomesFail dsEx qEx 2).1 =
      Except.ok [cAfail, cBfail] ∧
    cBfail ≠ cAfail := by
  refine ⟨⟨[cAfail, cBfail], 2, rfl,
    ⟨[cBfail, cAfail], ⟨List.Perm.swap cBfail cAfail [], by decide⟩, rfl⟩⟩,
    rfl, by decide⟩

/-- C3, amended: every admissible ranking output is sorted ascending by
`road_distance_m`, and the infinity-sentinel entries occupy only the tail
(any entry at or after a sentinel entry is itself a sentinel); the
relative order among the sentinel entries themselves is not guaranteed. -/
theorem C3_amended_sorted_inf_tail (refined : List Candidate) (n : Nat)
    (result : List Candidate) (h : IsRankOutput refined n result) :
    List.Sorted (keyLe roadKey) result ∧
    ∀ (i j : Nat) (hi : i < result.length) (hj : j < result.length),
      i ≤ j → roadKey (result.get ⟨i, hi⟩) = ⊤ →
      roadKey (result.get ⟨j, hj⟩) = ⊤ := by
  obtain ⟨out, ⟨hperm, hsorted⟩, hres⟩ := h
  subst hres
  have hsorted2 : List.Sorted (keyLe roadKey) (List.take n out) :=
    List.Pairwise.sublist (List.take_sublist n out) hsorted
  refine ⟨hsorted2, ?_⟩
  intro i j hi hj hij htop
  rcases Nat.lt_or_ge i j with hlt | hge
  · have hpw := (List.pairwise_iff_get.1 hsorted2) ⟨i, hi⟩ ⟨j, hj⟩
      (Fin.mk_lt_mk.2 hlt)
    have hle : (⊤ : WithTop ℚ) ≤ roadKey ((List.take n out).get ⟨j, hj⟩) := by
      rw [← htop]
      exact hpw
    exact top_le_iff.1 hle
  · have hij2 : i = j := le_antisymm hij hge
    subst hij2
    exact htop

/-- C3, witness for the amended theorem on a concrete one-element ranking
output. -/
theorem C3_amended_witness :
    IsRankOutput [cAok] 1 [cAok] ∧
    (List.Sorted (keyLe roadKey) [cAok] ∧
     ∀ (i j : Nat) (hi : i < ([cAok] : List Candidate).length)
       (hj : j < ([cAok] : List Candidate).length),
       i ≤ j → roadKey (([cAok] : List Candidate).get ⟨i, hi⟩) = ⊤ →
       roadKey (([cAok] : List Candidate).get ⟨j, hj⟩) = ⊤) :=
  ⟨⟨[cAok], ⟨List.Perm.refl _, by decide⟩, rfl⟩,
   C3_amended_sorted_inf_tail [cAok] 1 [cAok]
     ⟨[cAok], ⟨List.Perm.refl _, by decide⟩, rfl⟩⟩

/-! ## Claim C4: over-fetch invariant of the geodesic pre-filter -/

/-- C4: for every geodesic function, query point, dataset and `k ≥ 1`, the
pre-filter returns exactly `min (k * 3) |dataset|` candidate rows, sorted
ascending by geodesic distance, each row carrying the geodesic distance of
its unit from the query point. -/
theorem C4_prefilter_overfetch (geod : GeodesicFn) (q : ℚ × ℚ)
    (ds : List PollingUnit) (k : Nat) (hk : 1 ≤ k) :
    (prefilterRows geod q ds k).length = min (k * 3) ds.length ∧
    List.Sorted (keyLe (Prod.snd : PollingUnit × ℚ → ℚ))
      (prefilterRows geod q ds k) ∧
    ∀ r ∈ prefilterRows geod q ds k, r.2 = geod q (r.1.lat, r.1.lon) := by
  refine ⟨?_, ?_, ?_⟩
  · simp [prefilterRows, nsmallestBy, withGeo]
  · exact List.Pairwise.sublist (List.take_sublist _ _)
      (List.sorted_insertionSort _ _)
  · intro r hr
    have hmem : r ∈ withGeo geod q ds := by
      have h1 := List.take_subset (k * 3)
        (List.insertionSort (keyLe (Prod.snd : PollingUnit × ℚ → ℚ))
          (withGeo geod q ds)) hr
      exact (List.mem_insertionSort _).1 h1
    obtain ⟨u, hu, rfl⟩ := List.mem_map.1 hmem
    rfl

/-- C4, witness at a concrete dataset with `k = 1`. -/
theorem C4_witness :
    1 ≤ 1 ∧
    ((prefilterRows geodEx qEx dsEx 1).length = min (1 * 3) dsEx.length ∧
     List.Sorted (keyLe (Prod.snd : PollingUnit × ℚ → ℚ))
       (prefilterRows geodEx qEx dsEx 1) ∧
     ∀ r ∈ prefilterRows geodEx qEx dsEx 1,
       r.2 = geodEx qEx (r.1.lat, r.1.lon)) :=
  ⟨by decide, C4_prefilter_overfetch geodEx qEx dsEx 1 (by decide)⟩

/-! ## Claim C5: ranking truncation -/

/-- C5: every admissible ranking output for requested count `n` has
exactly `min n |refined|` entries — never more than `n`, and all available
candidates (without padding or error) when fewer than `n` exist. -/
theorem C5_rank_truncation (refined : List Candidate) (n : Nat)
    (result : List Candidate) (h : IsRankOutput refined n result) :
    result.length = min n refined.length := by
  obtain ⟨out, ⟨hperm, -⟩, rfl⟩ := h
  rw [List.length_take, ← hperm.length_eq]

/-- C5, witness: requesting `n = 5` from two refined candidates returns
both, exercising the `N`-greater-than-dataset boundary. -/
theorem C5_witness :
    IsRankOutput [cAok, cBok] 5 [cAok, cBok] ∧
    ([cAok, cBok] : List Candidate).length =
      min 5 ([cAok, cBok] : List Candidate).length :=
  ⟨⟨[cAok, cBok], ⟨List.Perm.refl _, by decide⟩, rfl⟩,
   C5_rank_truncation [cAok, cBok] 5 [cAok, cBok]
     ⟨[cAok, cBok], ⟨List.Perm.refl _, by decide⟩, rfl⟩⟩

/-! ## Claim C6: per-request timeout -/

/-- C6, counterexample: the routing requests issued during refinement
(`app.py`, `requests.post` without a `timeout=` argument) have *no*
bounded per-request timeout. -/
theorem C6_counterexample :
    (refinementRequest 9 8 7 6).timeoutSeconds = none :=
  rfl

/-- C6, amended: refinement routing requests carry no timeout bound at
all; only the secondary pipeline's single selected-route request
(`app2.py`) sets the 10-second timeout, and there a raised exception
(including a timeout) is caught and treated as a routing failure yielding
no route. -/
theorem C6_amended_timeout_only_selected_route :
    (∀ a b c d : ℚ, (refinementRequest a b c d).timeoutSeconds = none) ∧
    (∀ a b c d : ℚ, (selectedRouteRequest a b c d).timeoutSeconds = some 10) ∧
    get_route_geojson HttpResult.exn = none :=
  ⟨fun _ _ _ _ => rfl, fun _ _ _ _ => rfl, rfl⟩

/-! ## Claim C7: determinism and stable tie-break of the pre-filter -/

/-- C7: the pre-filter is a pure function (two runs on the same inputs are
definitionally the same ordered sequence), and candidates at equal
geodesic distance keep their dataset order: for every distance value `v`,
the pre-filter's rows at distance `v` form an initial segment, in dataset
order, of the dataset's rows at distance `v` (pandas `nsmallest` with
`keep='first'` selects by a stable sort). -/
theorem C7_prefilter_deterministic_stable (geod : GeodesicFn) (q : ℚ × ℚ)
    (ds : List PollingUnit) (n : Nat) (v : ℚ) :
    prefilterRows geod q ds n = prefilterRows geod q ds n ∧
    List.filter (fun r => decide (r.2 = v)) (prefilterRows geod q ds n) <+:
      List.filter (fun r => decide (r.2 = v)) (withGeo geod q ds) := by
  refine ⟨rfl, ?_⟩
  have hstable := filter_insertionSort_eq
    (Prod.snd : PollingUnit × ℚ → ℚ) v (withGeo geod q ds)
  have hlead := filter_take_leads
    (fun r : PollingUnit × ℚ => decide (r.2 = v)) (n * 3)
    (List.insertionSort (keyLe (Prod.snd : PollingUnit × ℚ → ℚ))
      (withGeo geod q ds))
  rw [hstable] at hlead
  exact hlead

/-! ## Claim C8: refinement is 1:1 and in order -/

/-- C8: whenever the refinement loop completes (returns a candidate
sequence rather than aborting), it yields exactly one candidate per input
row, in input order, each carrying its input row's polling unit and
geodesic distance. -/
theorem C8_refine_one_to_one_in_order (outcomes : Nat → HttpResult)
    (rows : List (PollingUnit × ℚ)) (out : List Candidate) (cnt : Nat)
    (h : refine outcomes rows = (Except.ok out, cnt)) :
    out.length = rows.length ∧
    ∀ j (hj : j < rows.length) (hj2 : j < out.length),
      (out.get ⟨j, hj2⟩).unit = (rows.get ⟨j, hj⟩).1 ∧
      (out.get ⟨j, hj2⟩).geo_distance_m = (rows.get ⟨j, hj⟩).2 := by
  obtain ⟨-, hlen, hget⟩ := refineFrom_ok_spec outcomes rows 0 out cnt h
  exact ⟨hlen, fun j hj hj2 => ⟨(hget j hj hj2).1, (hget j hj hj2).2.1⟩⟩

/-- C8, witness on a concrete two-row refinement with all calls
succeeding. -/
theorem C8_witness :
    refine outcomesOk rowsEx = (Except.ok [cAok, cBok], 2) ∧
    (([cAok, cBok] : List Candidate).length = rowsEx.length ∧
     ∀ j (hj : j < rowsEx.length)
       (hj2 : j < ([cAok, cBok] : List Candidate).length),
       (([cAok, cBok] : List Candidate).get ⟨j, hj2⟩).unit =
         (rowsEx.get ⟨j, hj⟩).1 ∧
       (([cAok, cBok] : List Candidate).get ⟨j, hj2⟩).geo_distance_m =
         (rowsEx.get ⟨j, hj⟩).2) :=
  ⟨rfl, C8_refine_one_to_one_in_order outcomesOk rowsEx [cAok, cBok] 2 rfl⟩

/-! ## Claim C9: queries do not mutate the dataset store -/

/-- C9: a resolution call hands the dataset store back exactly as it was —
both pipelines work on a per-query copy of the loaded frame
(`polling_units.copy()`) and attach all per-query columns to that copy
only. -/
theorem C9_store_unchanged (store : List PollingUnit) (geod : GeodesicFn)
    (outcomes : Nat → HttpResult) (q : ℚ × ℚ) (n : Nat)
    (geod2 : GeodesicFn) (q2 : ℚ × ℚ) (m : Nat) :
    (runQuery store geod outcomes q n).2 = store ∧
    (find_closest_polling_units geod2 q2 store m).2 = store :=
  ⟨rfl, rfl⟩

/-! ## Claim C10: results are drawn from the pre-filtered set -/

/-- C10: every candidate of an admissible `ResultSet` references a polling
unit belonging to the pre-filtered (geodesically nearest) candidate set —
a unit outside that set can never appear in the result. -/
theorem C10_result_within_prefilter (geod : GeodesicFn)
    (outcomes : Nat → HttpResult) (ds : List PollingUnit) (q : ℚ × ℚ)
    (n : Nat) (result : List Candidate)
    (h : IsResultSet geod outcomes ds q n result) :
    ∀ c ∈ result, c.unit ∈ (prefilterRows geod q ds n).map Prod.fst := by
  obtain ⟨refined, cnt, hres, out, ⟨hperm, -⟩, rfl⟩ := h
  intro c hc
  have hcout : c ∈ out := List.take_subset n out hc
  have hcref : c ∈ refined := hperm.mem_iff.2 hcout
  obtain ⟨⟨j, hj⟩, hget⟩ := List.mem_iff_get.1 hcref
  obtain ⟨-, hlen, hspec⟩ := refineFrom_ok_spec outcomes
    (prefilterRows geod q ds n) 0 refined cnt hres
  have hjrows : j < (prefilterRows geod q ds n).length := hlen ▸ hj
  have hunit := (hspec j hjrows hj).1
  rw [hget] at hunit
  rw [hunit]
  exact List.mem_map_of_mem Prod.fst (List.get_mem _ j hjrows)

/-- C10, witness: the single entry of a concrete `ResultSet` references a
pre-filtered unit. -/
theorem C10_witness :
    IsResultSet geodEx outcomesOk dsEx qEx 1 [cAok] ∧
    cAok.unit ∈ (prefilterRows geodEx qEx dsEx 1).map Prod.fst := by
  have hrs : IsResultSet geodEx outcomesOk dsEx qEx 1 [cAok] :=
    ⟨[cAok, cBok], 2, rfl, [cAok, cBok], ⟨List.Perm.refl _, by decide⟩, rfl⟩
  exact ⟨hrs, C10_result_within_prefilter geodEx outcomesOk dsEx qEx 1
    [cAok] hrs cAok (by decide)⟩

end PollingStations
